import Mathlib

/-!
Verification development for the audience analytics engine (`analytics.py`).

The engine ingests a batch of member-profile records and produces an
audience-analysis report (gender / age / geography / interests / activity /
completeness aggregates, a quality score and recommendations), and compares
two reports.  This file is a shallow embedding of that code:

* Python floats are modelled as exact rationals (`ℚ`); `round(x, 1)` is
  modelled as round-half-up at one decimal (`round1`);
* Python dictionaries whose iteration order matters are modelled as
  association lists `List (String × ℚ)` in insertion order;
* fallible operations (true division, which raises `ZeroDivisionError` on a
  zero denominator) are modelled in the `Except Unit` monad, so that
  "never raises" is the statement that the result is always `Except.ok`;
* optional / possibly malformed profile fields are modelled with `Option`
  (a missing key, an explicit `None` and a falsy value such as `{}` or `""`
  behave identically in the source and are collapsed into `none` / `""`).
-/

/-- Model of Python `round(y)` to the nearest integer (round-half-up in this
rational model of float rounding). -/
def pyRound (y : ℚ) : Int := ⌊y + 1/2⌋

/-- The age-group table `self.age_groups`: named half-open intervals, in
insertion order. -/
def age_groups : List (String × Int × Int) :=
  [("до 18", 0, 18), ("18-24", 18, 25), ("25-34", 25, 35),
   ("35-44", 35, 45), ("45-54", 45, 55), ("55+", 55, 200)]

/-- Model of Python `round(x, 1)`: round to one decimal place. -/
def round1 (x : ℚ) : ℚ := (pyRound (10 * x) : ℚ) / 10

/-- Python true division `a / b`; raises `ZeroDivisionError` when `b = 0`. -/
def pyDiv (a b : ℚ) : Except Unit ℚ :=
  if b = 0 then Except.error () else Except.ok (a / b)

/-- Model of Python `str.split('.')` on the character list: splitting on a
single dot, `"".split('.') == ['']`, `".".split('.') == ['', '']`. -/
def splitDots : List Char → List (List Char)
  | [] => [[]]
  | c :: rest =>
    let r := splitDots rest
    if c = '.' then [] :: r
    else
      match r with
      | h :: t => (c :: h) :: t
      | [] => [[c]]

/-- Model of Python `str.split('.')`. -/
def pySplitDot (s : String) : List String :=
  (splitDots s.data).map fun l => String.mk l

/-- Model of Python `int(str)`: optional surrounding whitespace, an optional
sign, then a nonempty run of decimal digits; any other shape raises
`ValueError`, modelled as `none`. -/
def pyInt (s : String) : Option Int :=
  let cs := ((s.data.dropWhile Char.isWhitespace).reverse.dropWhile
      Char.isWhitespace).reverse
  let signDigits : Int × List Char :=
    match cs with
    | '-' :: rest => (-1, rest)
    | '+' :: rest => (1, rest)
    | rest => (1, rest)
  let sign := signDigits.1
  let ds := signDigits.2
  if ds ≠ [] ∧ ds.all Char.isDigit then
    some (sign * ds.foldl (fun acc c => acc * 10 + ((c.toNat : Int) - 48)) 0)
  else none

/-- Python lexicographic comparison of two int pairs, `(a1, a2) < (b1, b2)`. -/
def tupLt (a b : Int × Int) : Bool :=
  a.1 < b.1 || (a.1 == b.1 && a.2 < b.2)

/-- A calendar date as used by `datetime.date.today()`. -/
structure Date where
  year : Int
  month : Int
  day : Int

/-- `AudienceAnalyzer._calculate_age`: parse `"d.m[.y]"`; a missing or falsy
(`0`) year, or a parse failure (`ValueError`, caught in the source), yields
`None`; otherwise age is current year minus birth year, minus one when
today's `(month, day)` precedes the birth `(month, day)`, floored at `0`. -/
def calculate_age (today : Date) (bdate : String) : Option Int :=
  if bdate = "" ∨ (pySplitDot bdate).length < 2 then none
  else
    match pyInt ((pySplitDot bdate).getD 0 ""),
        pyInt ((pySplitDot bdate).getD 1 ""),
        (if 2 < (pySplitDot bdate).length then
          pyInt ((pySplitDot bdate).getD 2 "") else none) with
    | some day, some month, some year =>
      if year = 0 then none
      else
        some (max 0 (today.year - year -
          (if tupLt (today.month, today.day) (month, day) then 1 else 0)))
    | _, _, _ => none

/-- A `city` / `country` value: a dict that may or may not carry a `title`
key.  A missing key, `None` and a falsy `{}` all behave identically in the
source and are collapsed into the outer `none` at the `Member` level. -/
structure CityInfo where
  title : Option String

/-- A `last_seen` value: a dict that may or may not carry a `time` key
(a platform timestamp, modelled as a rational number of seconds). -/
structure LastSeenInfo where
  time : Option ℚ

/-- One member-profile record, with every field optional, mirroring
`member.get(...)` access in the source. -/
structure Member where
  sex : Option Int := none
  bdate : Option String := none
  city : Option CityInfo := none
  country : Option CityInfo := none
  interests : Option String := none
  activities : Option String := none
  last_seen : Option LastSeenInfo := none

/-- Python truthiness of an optional string: `None` and `""` are falsy. -/
def strTruthy : Option String → Bool
  | none => false
  | some s => !(s == "")

/-- Lookup in an ordered dict modelled as an association list:
`d.get(k, 0)`. -/
def dget (d : List (String × ℚ)) (k : String) : ℚ :=
  match d with
  | [] => 0
  | (k', v) :: rest => if k' = k then v else dget rest k

/-- A `collections.Counter` with string keys, as an association list in
insertion order. -/
def cinc (c : List (String × Nat)) (k : String) : List (String × Nat) :=
  match c with
  | [] => [(k, 1)]
  | (k', n) :: rest => if k' = k then (k', n + 1) :: rest else (k', n) :: cinc rest k

/-- Stable descending insertion by count, modelling the sort inside
`Counter.most_common`. -/
def insertByCnt (x : String × Nat) : List (String × Nat) → List (String × Nat)
  | [] => [x]
  | y :: ys => if x.2 > y.2 then x :: y :: ys else y :: insertByCnt x ys

/-- `Counter.most_common(n)`: the `n` entries with the largest counts. -/
def mostCommon (n : Nat) (c : List (String × Nat)) : List (String × Nat) :=
  (c.foldr insertByCnt []).take n

/-- The gender tallies of `_analyze_gender`'s `Counter` (it only ever holds
the keys `female`, `male`, `unknown`). -/
structure GCounts where
  female : Nat
  male : Nat
  unknown : Nat

/-- One loop iteration of `_analyze_gender`: `member.get('sex', 0)` is `1`
for female, `2` for male, anything else is unknown. -/
def gStep (c : GCounts) (m : Member) : GCounts :=
  let gender := m.sex.getD 0
  if gender = 1 then { c with female := c.female + 1 }
  else if gender = 2 then { c with male := c.male + 1 }
  else { c with unknown := c.unknown + 1 }

/-- The member loop of `_analyze_gender`. -/
def genderCounts (members : List Member) : GCounts :=
  members.foldl gStep ⟨0, 0, 0⟩

/-- `AudienceAnalyzer._analyze_gender`: per-bucket percentages of the batch,
rounded to one decimal; an all-zero dict for an empty batch. -/
def analyze_gender (members : List Member) : List (String × ℚ) :=
  let c := genderCounts members
  let total := members.length
  if total = 0 then [("male", 0), ("female", 0), ("unknown", 0)]
  else
    [("male", round1 ((c.male : ℚ) / total * 100)),
     ("female", round1 ((c.female : ℚ) / total * 100)),
     ("unknown", round1 ((c.unknown : ℚ) / total * 100))]

/-- Accumulator of `_analyze_age`'s member loop: one counter per age-group
table entry (the source's `Counter` keyed by group name), the list of
resolved ages, and the tally of members without a usable birth date. -/
structure AgeAcc where
  cU18 : Nat := 0
  c18 : Nat := 0
  c25 : Nat := 0
  c35 : Nat := 0
  c45 : Nat := 0
  c55 : Nat := 0
  ages : List Int := []
  unknown : Nat := 0

/-- The `for group_name, (min_age, max_age) in self.age_groups.items()` loop
with its `break`, unrolled over the six entries of `age_groups`: the first
interval containing the age is incremented; an age contained in no interval
(only possible for `age ≥ 200`) increments nothing. -/
def bumpAge (acc : AgeAcc) (age : Int) : AgeAcc :=
  if 0 ≤ age ∧ age < 18 then { acc with cU18 := acc.cU18 + 1 }
  else if 18 ≤ age ∧ age < 25 then { acc with c18 := acc.c18 + 1 }
  else if 25 ≤ age ∧ age < 35 then { acc with c25 := acc.c25 + 1 }
  else if 35 ≤ age ∧ age < 45 then { acc with c35 := acc.c35 + 1 }
  else if 45 ≤ age ∧ age < 55 then { acc with c45 := acc.c45 + 1 }
  else if 55 ≤ age ∧ age < 200 then { acc with c55 := acc.c55 + 1 }
  else acc

/-- One iteration of `_analyze_age`'s member loop: a falsy birth date or a
failed parse counts as unknown; a resolved age joins `ages` and is bucketed. -/
def ageStep (today : Date) (acc : AgeAcc) (m : Member) : AgeAcc :=
  if strTruthy m.bdate then
    match calculate_age today (m.bdate.getD "") with
    | some age => bumpAge { acc with ages := acc.ages ++ [age] } age
    | none => { acc with unknown := acc.unknown + 1 }
  else { acc with unknown := acc.unknown + 1 }

/-- `AudienceAnalyzer._analyze_age`: the ordered result dict — one percentage
per named group (over the whole batch), then `average_age` (over resolved
ages, `0` if none) and `unknown_percentage`; `{}` for an empty batch. -/
def analyze_age (today : Date) (members : List Member) : List (String × ℚ) :=
  let acc := members.foldl (ageStep today) {}
  let totalMembers := members.length
  if totalMembers = 0 then []
  else
    [("до 18", round1 ((acc.cU18 : ℚ) / totalMembers * 100)),
     ("18-24", round1 ((acc.c18 : ℚ) / totalMembers * 100)),
     ("25-34", round1 ((acc.c25 : ℚ) / totalMembers * 100)),
     ("35-44", round1 ((acc.c35 : ℚ) / totalMembers * 100)),
     ("45-54", round1 ((acc.c45 : ℚ) / totalMembers * 100)),
     ("55+", round1 ((acc.c55 : ℚ) / totalMembers * 100)),
     ("average_age",
       if acc.ages ≠ [] then round1 ((acc.ages.sum : ℚ) / acc.ages.length) else 0),
     ("unknown_percentage", round1 ((acc.unknown : ℚ) / totalMembers * 100))]

/-- Lowercasing of one character, covering ASCII and the Cyrillic block used
by the source's data (`str.lower` on the relevant alphabets). -/
def pyLowerChar (c : Char) : Char :=
  if 'А' ≤ c ∧ c ≤ 'Я' then Char.ofNat (c.toNat + 32)
  else if c = 'Ё' then 'ё'
  else c.toLower

/-- Uppercasing of one character (ASCII and Cyrillic). -/
def pyUpperChar (c : Char) : Char :=
  if 'а' ≤ c ∧ c ≤ 'я' then Char.ofNat (c.toNat - 32)
  else if c = 'ё' then 'Ё'
  else c.toUpper

/-- Model of Python `str.lower()` on the alphabets the source uses. -/
def pyLower (s : String) : String := ⟨s.data.map pyLowerChar⟩

/-- Whether a character is cased (ASCII or Cyrillic letter). -/
def isCased (c : Char) : Bool :=
  c.isAlpha || ('А' ≤ c && c ≤ 'я') || c = 'Ё' || c = 'ё'

/-- Helper for `pyTitle`: the flag records whether the previous character was
a letter. -/
def pyTitleAux : Bool → List Char → List Char
  | _, [] => []
  | prevAlpha, c :: rest =>
    (if isCased c then (if prevAlpha then pyLowerChar c else pyUpperChar c) else c)
      :: pyTitleAux (isCased c) rest

/-- Model of Python `str.title()`: capitalize the first letter of every word,
lowercase the rest. -/
def pyTitle (s : String) : String := ⟨pyTitleAux false s.data⟩

/-- Substring test on character lists, modelling Python's `needle in hay`. -/
def isSubChars (needle : List Char) : List Char → Bool
  | [] => needle.isEmpty
  | c :: rest => needle.isPrefixOf (c :: rest) || isSubChars needle rest

/-- Python `kw in text` for strings. -/
def pyContains (kw text : String) : Bool := isSubChars kw.data text.data

/-- The static keyword table `self.interest_categories`, in insertion order. -/
def interest_categories : List (String × List String) :=
  [("технологии", ["программирование", "it", "код", "python", "java", "javascript",
     "разработка", "компьютер", "айти", "гаджеты", "технологии", "техника",
     "смартфон", "ноутбук"]),
   ("образование", ["учеба", "образование", "курсы", "школа", "университет", "вуз",
     "студент", "обучение", "знания", "наука", "исследование", "лаборатория"]),
   ("спорт", ["спорт", "футбол", "хоккей", "баскетбол", "тренировка", "фитнес",
     "зал", "бег", "йога", "плавание", "кроссфит", "бокс", "единоборства"]),
   ("искусство", ["искусство", "живопись", "музыка", "кино", "театр", "танцы",
     "фотография", "дизайн", "арт", "творчество", "рисование", "пение"]),
   ("бизнес", ["бизнес", "стартап", "предпринимательство", "инвестиции", "финансы",
     "маркетинг", "продажи", "управление", "компания", "проект", "деньги",
     "экономика"]),
   ("путешествия", ["путешествия", "туризм", "отдых", "отпуск", "страны", "города",
     "поездки", "авиабилеты", "отели", "курорты", "пляж", "горы"]),
   ("мода", ["мода", "стиль", "одежда", "обувь", "косметика", "красота", "прическа",
     "макияж", "шопинг", "бренды", "тренды", "луки"]),
   ("авто", ["авто", "машина", "автомобиль", "водитель", "дорога", "тюнинг",
     "мотоцикл", "бензин", "ремонт", "запчасти"]),
   ("кулинария", ["кулинария", "готовка", "рецепты", "еда", "кухня", "повар",
     "блюда", "десерты", "рестораны", "напитки", "кофе", "чай"]),
   ("здоровье", ["здоровье", "медицина", "врач", "больница", "лечение", "диета",
     "витамины", "тренировка", "йога", "медитация", "психология"]),
   ("гейминг", ["игры", "гейминг", "игрок", "консоль", "ps", "xbox", "steam",
     "киберспорт", "стрим", "twitch", "дота", "кспоп", "майнкрафт"]),
   ("книги", ["книги", "чтение", "литература", "роман", "фэнтези", "детектив",
     "поэзия", "писатель", "библиотека", "аудиокнига"]),
   ("сериалы", ["сериалы", "фильмы", "кино", "нетфликс", "hdrezka", "тв", "актеры",
     "режиссер", "премьера", "обзор"]),
   ("музыка", ["музыка", "плейлист", "концерт", "альбом", "исполнитель", "группа",
     "рок", "поп", "хип-хоп", "джаз", "классика"]),
   ("хобби", ["хобби", "рукоделие", "коллекционирование", "садоводство", "рыбалка",
     "охота", "вышивка", "вязание", "моделирование", "пазлы"])]

/-- The static list `self.russian_cities` (its first 15 entries are the
"million cities"). -/
def russian_cities : List String :=
  ["москва", "санкт-петербург", "новосибирск", "екатеринбург", "нижний новгород",
   "казань", "челябинск", "омск", "самара", "ростов-на-дону", "уфа", "красноярск",
   "пермь", "воронеж", "волгоград", "краснодар", "саратов", "тюмень", "тольятти",
   "ижевск", "барнаул", "ульяновск", "иркутск", "хабаровск", "ярославль",
   "владивосток", "махачкала", "томск", "оренбург", "кемерово", "новокузнецк",
   "рязань", "астрахань", "пенза", "липецк", "киров", "чебоксары", "калининград",
   "тула", "ставрополь", "курск", "сочи", "тверь", "магнитогорск", "сургут",
   "волжский", "салават"]

/-- The fixed capital-city set used by the city-tier classification. -/
def capital_cities : List String :=
  ["москва", "санкт-петербург", "минск", "киев", "астана"]

/-- `AudienceAnalyzer._categorize_interests`: a category is recorded when any
of its keywords occurs (case-insensitively) in the text; each category at
most once (the source's `break` / `list(set(...))`), listed here in the
table's insertion order. -/
def categorize_interests (interests_text : String) : List String :=
  if interests_text = "" then []
  else
    let text_lower := pyLower interests_text
    interest_categories.foldl
      (fun cats kv =>
        if kv.2.any (fun kw => pyContains kw text_lower) then cats ++ [kv.1]
        else cats) []

/-- Accumulator of `_analyze_geography`'s member loop: city and country
counters plus the unknown-location tally. -/
structure GeoAcc where
  cities : List (String × Nat) := []
  countries : List (String × Nat) := []
  unknownLocation : Nat := 0

/-- One iteration of `_analyze_geography`'s member loop: a city dict with a
`title` is counted (lowercased), anything else counts as unknown location;
a country dict with a `title` is counted as-is. -/
def geoStep (acc : GeoAcc) (m : Member) : GeoAcc :=
  let acc1 :=
    match m.city with
    | some ci =>
      match ci.title with
      | some t => { acc with cities := cinc acc.cities (pyLower t) }
      | none => { acc with unknownLocation := acc.unknownLocation + 1 }
    | none => { acc with unknownLocation := acc.unknownLocation + 1 }
  match m.country with
  | some co =>
    match co.title with
    | some t => { acc1 with countries := cinc acc1.countries t }
    | none => acc1
  | none => acc1

/-- The city-tier tallies of `_analyze_geography`. -/
structure CityTypes where
  capitals : Nat := 0
  million : Nat := 0
  large : Nat := 0
  medium : Nat := 0
  small : Nat := 0

/-- The city-classification loop: first matching rule wins — fixed capital
set, first 15 of `russian_cities`, count ≥ 100, count ≥ 30, else small. -/
def cityTypesOf (cities : List (String × Nat)) : CityTypes :=
  cities.foldl
    (fun ct ci =>
      if pyLower ci.1 ∈ capital_cities then { ct with capitals := ct.capitals + ci.2 }
      else if pyLower ci.1 ∈ russian_cities.take 15 then
        { ct with million := ct.million + ci.2 }
      else if ci.2 ≥ 100 then { ct with large := ct.large + ci.2 }
      else if ci.2 ≥ 30 then { ct with medium := ct.medium + ci.2 }
      else { ct with small := ct.small + ci.2 }) {}

/-- The `geography` section of the report. -/
structure Geo where
  top_cities : List (String × ℚ)
  countries : List (String × ℚ)
  city_types : List (String × ℚ)
  unknown_location_percentage : ℚ

/-- The `for city, count in cities_counter.most_common(10)` loop of
`_analyze_geography`: `round((count / total) * 100, 1)` divides by the batch
size with no guard, so the loop lives in the `Except` monad. -/
def top_cities_loop (total : ℚ) (cs : List (String × Nat)) :
    Except Unit (List (String × ℚ)) :=
  cs.foldlM
    (fun (tc : List (String × ℚ)) ci => do
      let q ← pyDiv (ci.2 : ℚ) total
      pure (tc ++ [(pyTitle ci.1, round1 (q * 100))])) []

/-- The `for country, count in countries_counter.most_common(5)` loop of
`_analyze_geography` — same unguarded division. -/
def countries_loop (total : ℚ) (cs : List (String × Nat)) :
    Except Unit (List (String × ℚ)) :=
  cs.foldlM
    (fun (cd : List (String × ℚ)) co => do
      let q ← pyDiv (co.2 : ℚ) total
      pure (cd ++ [(co.1, round1 (q * 100))])) []

/-- `AudienceAnalyzer._analyze_geography`.  The top-10-cities and
top-5-countries loops divide by the batch size with no emptiness guard, so
they are written in the `Except` monad via `pyDiv`; every other division in
the source sits under an explicit `total > 0` check. -/
def analyze_geography (members : List Member) : Except Unit Geo := do
  let acc := members.foldl geoStep {}
  let total : ℚ := (members.length : ℚ)
  let topCities ← top_cities_loop total (mostCommon 10 acc.cities)
  let countriesDist ← countries_loop total (mostCommon 5 acc.countries)
  let ct := cityTypesOf acc.cities
  let cityTypesPct : List (String × ℚ) :=
    if members.length > 0 then
      [("столицы", round1 ((ct.capitals : ℚ) / total * 100)),
       ("миллионники", round1 ((ct.million : ℚ) / total * 100)),
       ("крупные_города", round1 ((ct.large : ℚ) / total * 100)),
       ("средние_города", round1 ((ct.medium : ℚ) / total * 100)),
       ("малые_города", round1 ((ct.small : ℚ) / total * 100))]
    else []
  pure
    { top_cities := topCities
      countries := countriesDist
      city_types := cityTypesPct
      unknown_location_percentage :=
        if members.length > 0 then round1 ((acc.unknownLocation : ℚ) / total * 100)
        else 0 }

/-- The `interests` section of the report. -/
structure Interests where
  popular_categories : List (String × ℚ)
  profile_fill_rate : ℚ
  total_categories_found : Nat

/-- `AudienceAnalyzer._analyze_interests`: category hits over both free-text
fields, top-10 categories as share of total hits, fill rate, and the number
of distinct categories seen. -/
def analyze_interests (members : List Member) : Interests :=
  let catCounter := members.foldl
    (fun c m =>
      let c1 :=
        if strTruthy m.interests then
          (categorize_interests (m.interests.getD "")).foldl cinc c
        else c
      if strTruthy m.activities then
        (categorize_interests (m.activities.getD "")).foldl cinc c1
      else c1) []
  let totalHits := (catCounter.map Prod.snd).sum
  let popular := (mostCommon 10 catCounter).foldl
    (fun (p : List (String × ℚ)) ci =>
      if totalHits > 0 then p ++ [(ci.1, round1 ((ci.2 : ℚ) / totalHits * 100))]
      else p) []
  let filled := members.countP (fun m => strTruthy m.interests || strTruthy m.activities)
  { popular_categories := popular
    profile_fill_rate :=
      if members.length ≠ 0 then round1 ((filled : ℚ) / members.length * 100) else 0
    total_categories_found := catCounter.length }

/-- The `social_activity` section of the report. -/
structure Social where
  last_seen_distribution : List (String × ℚ)
  active_users_percentage : ℚ

/-- The recency tallies of `_analyze_social_activity`. -/
structure LSAcc where
  d1 : Nat := 0
  d7 : Nat := 0
  w4 : Nat := 0
  m3 : Nat := 0
  older : Nat := 0
  never : Nat := 0

/-- One iteration of `_analyze_social_activity`'s member loop: bucket by the
number of days since the `last_seen.time` timestamp; no usable timestamp
falls into the `никогда` bucket. -/
def socialStep (now : ℚ) (acc : LSAcc) (m : Member) : LSAcc :=
  match m.last_seen with
  | some ls =>
    match ls.time with
    | some t =>
      let daysDiff := (now - t) / (24 * 3600)
      if daysDiff < 1 then { acc with d1 := acc.d1 + 1 }
      else if daysDiff < 7 then { acc with d7 := acc.d7 + 1 }
      else if daysDiff < 30 then { acc with w4 := acc.w4 + 1 }
      else if daysDiff < 90 then { acc with m3 := acc.m3 + 1 }
      else { acc with older := acc.older + 1 }
    | none => { acc with never := acc.never + 1 }
  | none => { acc with never := acc.never + 1 }

/-- `AudienceAnalyzer._analyze_social_activity`. -/
def analyze_social_activity (now : ℚ) (members : List Member) : Social :=
  let acc := members.foldl (socialStep now) {}
  let total := members.length
  { last_seen_distribution :=
      if total > 0 then
        [("менее_дня", round1 ((acc.d1 : ℚ) / total * 100)),
         ("1-7_дней", round1 ((acc.d7 : ℚ) / total * 100)),
         ("1-4_недели", round1 ((acc.w4 : ℚ) / total * 100)),
         ("1-3_месяца", round1 ((acc.m3 : ℚ) / total * 100)),
         ("более_3_месяцев", round1 ((acc.older : ℚ) / total * 100)),
         ("никогда", round1 ((acc.never : ℚ) / total * 100))]
      else []
    active_users_percentage :=
      if total > 0 then round1 (((acc.d1 : ℚ) + acc.d7) / total * 100) else 0 }

/-- The `profile_completeness` section of the report. -/
structure Completeness where
  average_completeness : ℚ
  high_completeness_percentage : ℚ
  low_completeness_percentage : ℚ

/-- The per-member weighted completeness score of
`_analyze_profile_completeness` (total weight is always 100): a field counts
when `member.get(field)` is truthy — for `sex` that means a nonzero value,
for text fields a nonempty string, for dict fields a truthy dict. -/
def memberScore (m : Member) : ℚ :=
  let score : ℚ :=
    (if (match m.sex with | some v => !(v == 0) | none => false) then 10 else 0) +
    (if strTruthy m.bdate then 15 else 0) +
    (if m.city.isSome then 15 else 0) +
    (if m.country.isSome then 10 else 0) +
    (if strTruthy m.interests then 15 else 0) +
    (if strTruthy m.activities then 15 else 0) +
    (if m.last_seen.isSome then 20 else 0)
  score / 100 * 100

/-- `AudienceAnalyzer._analyze_profile_completeness`. -/
def analyze_profile_completeness (members : List Member) : Completeness :=
  let scores := members.map memberScore
  if scores = [] then
    { average_completeness := 0
      high_completeness_percentage := 0
      low_completeness_percentage := 0 }
  else
    { average_completeness := round1 (scores.sum / scores.length)
      high_completeness_percentage :=
        round1 ((scores.countP (fun s => decide (s > 70)) : ℚ) / scores.length * 100)
      low_completeness_percentage :=
        round1 ((scores.countP (fun s => decide (s < 30)) : ℚ) / scores.length * 100) }

/-- `AudienceAnalyzer._generate_recommendations`: ordered threshold rules over
the merged report, followed by three fixed general tips; capped at 10. -/
def generate_recommendations (gender : List (String × ℚ)) (age : List (String × ℚ))
    (geography : Geo) (social : Social) (interests : Interests)
    (completeness : Completeness) : List String :=
  let recs : List String := []
  let recs :=
    if dget gender "male" > 70 then
      recs ++ ["✅ <b>Аудитория преимущественно мужская</b> - используйте мужские темы в рекламе"]
    else if dget gender "female" > 70 then
      recs ++ ["✅ <b>Аудитория преимущественно женская</b> - акцент на женские интересы"]
    else recs
  let recs :=
    if dget age "18-24" > 40 then
      recs ++ ["🎓 <b>Молодая аудитория 18-24 года</b> - эффективны трендовый контент и соцсети"]
    else if dget age "35-44" > 40 then
      recs ++ ["💼 <b>Аудитория 35-44 года</b> - делайте акцент на стабильность и качество"]
    else recs
  let recs :=
    if dget geography.city_types "столицы" > 50 then
      recs ++ ["🏙️ <b>Преобладают столичные жители</b> - можно предлагать премиум-товары"]
    else if dget geography.city_types "малые_города" > 50 then
      recs ++ ["🏡 <b>Много жителей малых городов</b> - важны доступность и доставка"]
    else recs
  let recs :=
    if social.active_users_percentage > 70 then
      recs ++ ["📱 <b>Высокая активность аудитории</b> - подходят частые публикации и интерактив"]
    else
      recs ++ ["⏰ <b>Аудитория не очень активна</b> - делайте публикации реже, но качественнее"]
  let recs := (interests.popular_categories.take 3).foldl
    (fun (r : List String) cp =>
      if cp.2 > 20 then
        r ++ ["🎯 <b>Популярная тема: " ++ cp.1 ++ "</b> - используйте в контенте"]
      else r) recs
  let recs :=
    if completeness.high_completeness_percentage > 60 then
      recs ++ ["📋 <b>Профили хорошо заполнены</b> - можно использовать сложный таргетинг"]
    else recs
  let recs := recs ++
    ["💡 <b>Используйте Lookalike-аудитории</b> для поиска похожих пользователей",
     "📊 <b>Тестируйте разные форматы рекламы</b> - картинки, видео, карусели",
     "⏳ <b>Публикуйте контент в пиковые часы</b> - 9-11 утра и 19-22 вечера"]
  recs.take 10

/-- `AudienceAnalyzer._calculate_audience_quality_score`: base 50, up to 20
for completeness, up to 20 for activity, 10 for interest diversity, 10 for
gender balance; clamped to [0, 100] and rounded to one decimal. -/
def calculate_audience_quality_score (completeness : Completeness) (social : Social)
    (interests : Interests) (gender : List (String × ℚ)) : ℚ :=
  let score : ℚ := 50
  let score := score + completeness.average_completeness / 100 * 20
  let score := score + social.active_users_percentage / 100 * 20
  let score := if interests.total_categories_found > 5 then score + 10 else score
  let score :=
    if |dget gender "male" - dget gender "female"| < 20 then score + 10 else score
  round1 (min 100 (max 0 score))

/-- The fixed interpretation sentence for a quality score. -/
def quality_interpretation (score : ℚ) : String :=
  if score ≥ 80 then "Отличная аудитория! Высокая вовлеченность и качество"
  else if score ≥ 60 then "Хорошая аудитория. Есть потенциал для роста"
  else if score ≥ 40 then "Средняя аудитория. Рекомендуется работа над вовлечением"
  else "Слабая аудитория. Нужна стратегия по улучшению"

/-- The full analysis report built by `analyze_audience` for a non-empty
batch. -/
structure Report where
  gender : List (String × ℚ)
  age_groups : List (String × ℚ)
  geography : Geo
  interests : Interests
  social_activity : Social
  profile_completeness : Completeness
  total_members_analyzed : Nat
  recommendations : List String
  audience_quality_score : ℚ
  quality_interpretation : String

/-- The report construction of `analyze_audience` (the `asyncio.gather`
fan-out is pure, so the aggregators are evaluated in order). -/
def buildReport (now : ℚ) (today : Date) (members : List Member) (geography : Geo) :
    Report :=
  let gender := analyze_gender members
  let age := analyze_age today members
  let interests := analyze_interests members
  let social := analyze_social_activity now members
  let completeness := analyze_profile_completeness members
  let recs := generate_recommendations gender age geography social interests completeness
  let score := calculate_audience_quality_score completeness social interests gender
  { gender := gender
    age_groups := age
    geography := geography
    interests := interests
    social_activity := social
    profile_completeness := completeness
    total_members_analyzed := members.length
    recommendations := recs
    audience_quality_score := score
    quality_interpretation := quality_interpretation score }

/-- `AudienceAnalyzer.analyze_audience`: `{}` (here `none`) for an empty
batch, otherwise the full report; the only operation that could raise is the
unguarded division inside `_analyze_geography`. -/
def analyze_audience (now : ℚ) (today : Date) (members : List Member) :
    Except Unit (Option Report) :=
  if members.isEmpty then Except.ok none
  else
    (analyze_geography members).bind fun geography =>
      Except.ok (some (buildReport now today members geography))

/-- `analysis.get('gender', {})` on a possibly-empty report dict. -/
def getGender : Option Report → List (String × ℚ)
  | some r => r.gender
  | none => []

/-- `analysis.get('age_groups', {})` on a possibly-empty report dict. -/
def getAge : Option Report → List (String × ℚ)
  | some r => r.age_groups
  | none => []

/-- `analysis.get('audience_quality_score', 0)` on a possibly-empty report
dict. -/
def getScore : Option Report → ℚ
  | some r => r.audience_quality_score
  | none => 0

/-- The inner helper `calculate_similarity_percentage` of
`compare_audiences`: 0 when either dict is falsy, otherwise the mean over the
union of keys of `100 - |v1 - v2|` (missing key read as 0), rounded to one
decimal.  The key set union is modelled as the deduplicated concatenation of
the two key lists; the mean does not depend on the iteration order. -/
def calculate_similarity_percentage (d1 d2 : List (String × ℚ)) : ℚ :=
  if d1 = [] ∨ d2 = [] then 0
  else
    let totalKeys := (d1.map Prod.fst ++ d2.map Prod.fst).dedup
    if totalKeys = [] then 0
    else
      round1 ((totalKeys.map (fun k => 100 - |dget d1 k - dget d2 k|)).sum /
        totalKeys.length)

/-- Python `max(items, key=lambda x: x[1])` over dict items: the first
maximal entry in iteration order (strict comparison keeps the earlier one on
ties). -/
def pyMaxSnd : List (String × ℚ) → Option (String × ℚ)
  | [] => none
  | x :: xs => some (xs.foldl (fun best y => if y.2 > best.2 then y else best) x)

/-- `max(age.items(), key=lambda x: x[1])[0] if age else None`: the key of
the first maximal entry of the whole age dict (named buckets, `average_age`
and `unknown_percentage` alike). -/
def mainAgeGroup (d : List (String × ℚ)) : Option String :=
  (pyMaxSnd d).map Prod.fst

/-- The result of `compare_audiences`. -/
structure CompareResult where
  similarity_score : ℚ
  gender_similarity : ℚ
  age_similarity : ℚ
  common_characteristics : List String
  audience1_quality : ℚ
  audience2_quality : ℚ
  quality_difference : ℚ

/-- `AudienceAnalyzer.compare_audiences` on two (possibly empty) reports. -/
def compare_audiences (a1 a2 : Option Report) : CompareResult :=
  let gender_similarity := calculate_similarity_percentage (getGender a1) (getGender a2)
  let age_similarity := calculate_similarity_percentage (getAge a1) (getAge a2)
  let total_similarity := round1 ((gender_similarity + age_similarity) / 2)
  let g1 := getGender a1
  let g2 := getGender a2
  let genderChars : List String :=
    if dget g1 "male" > 50 ∧ dget g2 "male" > 50 then ["Преобладает мужская аудитория"]
    else if dget g1 "female" > 50 ∧ dget g2 "female" > 50 then
      ["Преобладает женская аудитория"]
    else []
  let ageChars : List String :=
    match mainAgeGroup (getAge a1), mainAgeGroup (getAge a2) with
    | some x, some y =>
      if x ≠ "" ∧ y ≠ "" ∧ x = y then ["Основная возрастная группа: " ++ x] else []
    | _, _ => []
  let score1 := getScore a1
  let score2 := getScore a2
  let qualChars : List String :=
    if |score1 - score2| < 10 then ["Схожее качество аудитории"]
    else if score1 > score2 + 10 then ["Первая аудитория качественнее"]
    else if score2 > score1 + 10 then ["Вторая аудитория качественнее"]
    else []
  { similarity_score := total_similarity
    gender_similarity := gender_similarity
    age_similarity := age_similarity
    common_characteristics := genderChars ++ ageChars ++ qualChars
    audience1_quality := score1
    audience2_quality := score2
    quality_difference := round1 |score1 - score2| }

/-- The total of the six named-bucket tallies of an age accumulator. -/
def bucketSum (acc : AgeAcc) : Nat :=
  acc.cU18 + acc.c18 + acc.c25 + acc.c35 + acc.c45 + acc.c55

/-- The claim's "sum of the named age-bucket percentages": every entry of the
age dict except `average_age` and `unknown_percentage`. -/
def namedBucketSum (d : List (String × ℚ)) : ℚ :=
  ((d.filter fun p =>
      !(p.1 == "average_age") && !(p.1 == "unknown_percentage")).map Prod.snd).sum

/-- The dimension-similarity exactly as the claim words it: the average, over
the union of keys present in either distribution, of `100 - |v1 - v2|`, a
missing key contributing its value as `0`. -/
def simSpec (d1 d2 : List (String × ℚ)) : ℚ :=
  (∑ k in (d1.map Prod.fst).toFinset ∪ (d2.map Prod.fst).toFinset,
    (100 - |dget d1 k - dget d2 k|)) /
    ((d1.map Prod.fst).toFinset ∪ (d2.map Prod.fst).toFinset).card

/-- The claim's "dominant age bucket": the first named bucket (ignoring
`average_age` and `unknown_percentage`) carrying the highest percentage. -/
def dominantNamedBucket (d : List (String × ℚ)) : Option String :=
  (pyMaxSnd (d.filter fun p =>
      !(p.1 == "average_age") && !(p.1 == "unknown_percentage"))).map Prod.fst

/-- A member record carrying only a birth date. -/
def mb (s : String) : Member := { bdate := some s }

/-- A fixed "today" used by the concrete evaluations. -/
def todayJune2024 : Date := ⟨2024, 6, 15⟩

/-- Six members whose birth dates resolve (against `todayJune2024`) to ages
10, 20, 30, 40, 50 and 60 — one member in each age bucket. -/
def evenBatch : List Member :=
  [mb "1.1.2014", mb "1.1.2004", mb "1.1.1994",
   mb "1.1.1984", mb "1.1.1974", mb "1.1.1964"]

/-- A report whose age dict has `до 18` as its strictly dominant named bucket
but `average_age` as its overall maximal entry (as for a 7-member batch with
ages 10, 10, 20, 30, 40, 50, 60). -/
def reportA : Report :=
  { gender := [("male", 0), ("female", 0), ("unknown", 0)]
    age_groups := [("до 18", 28.6), ("18-24", 14.3), ("25-34", 14.3),
      ("35-44", 14.3), ("45-54", 14.3), ("55+", 14.3),
      ("average_age", 31.4), ("unknown_percentage", 0)]
    geography := ⟨[], [], [], 0⟩
    interests := ⟨[], 0, 0⟩
    social_activity := ⟨[], 0⟩
    profile_completeness := ⟨0, 0, 0⟩
    total_members_analyzed := 7
    recommendations := []
    audience_quality_score := 0
    quality_interpretation := "" }

/-- A report whose age dict has `18-24` as its strictly dominant named bucket
but `average_age` as its overall maximal entry (as for ages
10, 20, 20, 30, 40, 50, 60). -/
def reportB : Report :=
  { gender := [("male", 0), ("female", 0), ("unknown", 0)]
    age_groups := [("до 18", 14.3), ("18-24", 28.6), ("25-34", 14.3),
      ("35-44", 14.3), ("45-54", 14.3), ("55+", 14.3),
      ("average_age", 32.9), ("unknown_percentage", 0)]
    geography := ⟨[], [], [], 0⟩
    interests := ⟨[], 0, 0⟩
    social_activity := ⟨[], 0⟩
    profile_completeness := ⟨0, 0, 0⟩
    total_members_analyzed := 7
    recommendations := []
    audience_quality_score := 0
    quality_interpretation := "" }

/-! ## Helper lemmas -/

lemma pyRound_le (y : ℚ) : (pyRound y : ℚ) ≤ y + 1/2 := by
  unfold pyRound
  exact Int.floor_le (y + 1/2)

lemma lt_pyRound (y : ℚ) : y + 1/2 < (pyRound y : ℚ) + 1 := by
  unfold pyRound
  exact Int.lt_floor_add_one (y + 1/2)

lemma abs_pyRound_sub (y : ℚ) : |(pyRound y : ℚ) - y| ≤ 1/2 := by
  have h1 := pyRound_le y
  have h2 := lt_pyRound y
  rw [abs_le]
  constructor <;> linarith

lemma round1_listSum (l : List ℚ) :
    (l.map round1).sum = (((l.map fun x => pyRound (10 * x)).sum : Int) : ℚ) / 10 := by
  induction l with
  | nil => simp
  | cons x xs ih =>
    simp only [List.map_cons, List.sum_cons, ih, round1]
    push_cast
    ring

lemma abs_pyRoundSum_sub (l : List ℚ) :
    |(((l.map fun x => pyRound (10 * x)).sum : Int) : ℚ) - 10 * l.sum| ≤
      (l.length : ℚ) / 2 := by
  induction l with
  | nil => simp
  | cons x xs ih =>
    simp only [List.map_cons, List.sum_cons, List.length_cons]
    have hx := abs_pyRound_sub (10 * x)
    have h1 : ((pyRound (10 * x) + (xs.map fun x => pyRound (10 * x)).sum : Int) : ℚ) -
        10 * (x + xs.sum) =
        ((pyRound (10 * x) : ℚ) - 10 * x) +
          ((((xs.map fun x => pyRound (10 * x)).sum : Int) : ℚ) - 10 * xs.sum) := by
      push_cast
      ring
    rw [h1]
    have h2 := abs_add ((pyRound (10 * x) : ℚ) - 10 * x)
      ((((xs.map fun x => pyRound (10 * x)).sum : Int) : ℚ) - 10 * xs.sum)
    have h3 : ((xs.length + 1 : ℕ) : ℚ) / 2 = 1/2 + (xs.length : ℚ) / 2 := by
      push_cast
      ring
    rw [h3]
    calc _ ≤ _ := h2
      _ ≤ 1/2 + (xs.length : ℚ) / 2 := by
        have := add_le_add hx ih
        linarith

/-- When a list of exact values sums to the integer `n`, the sum of their
one-decimal roundings can drift from `n` by at most `⌊len/2⌋` tenths. -/
lemma round1_sum_near (l : List ℚ) (n : Int) (h : l.sum = (n : ℚ)) :
    |(l.map round1).sum - (n : ℚ)| ≤ ((l.length / 2 : ℕ) : ℚ) / 10 := by
  set R : Int := (l.map fun x => pyRound (10 * x)).sum with hR
  have h1 : (l.map round1).sum = (R : ℚ) / 10 := round1_listSum l
  have h2 : |(R : ℚ) - 10 * n| ≤ (l.length : ℚ) / 2 := by
    have := abs_pyRoundSum_sub l
    rw [h] at this
    exact this
  have h3 : 2 * |R - 10 * n| ≤ (l.length : Int) := by
    have : ((2 * |R - 10 * n| : Int) : ℚ) ≤ (l.length : ℚ) := by
      push_cast
      rw [abs_sub_comm] at h2
      rw [abs_sub_comm]
      linarith
    exact_mod_cast this
  have h4 : |R - 10 * n| ≤ ((l.length / 2 : ℕ) : Int) := by omega
  have h5 : |(l.map round1).sum - (n : ℚ)| = |(R : ℚ) - 10 * n| / 10 := by
    rw [h1]
    rw [show (R : ℚ) / 10 - (n : ℚ) = ((R : ℚ) - 10 * n) / 10 by ring]
    rw [abs_div]
    norm_num
  rw [h5]
  have h6 : |(R : ℚ) - 10 * n| ≤ ((l.length / 2 : ℕ) : ℚ) := by
    have h7 : ((|R - 10 * n| : Int) : ℚ) ≤ (((l.length / 2 : ℕ) : Int) : ℚ) :=
      Int.cast_le.mpr h4
    rw [Int.cast_abs] at h7
    push_cast at h7
    convert h7 using 2
  linarith

lemma round1_bounds {x : ℚ} (h0 : 0 ≤ x) (h1 : x ≤ 100) :
    0 ≤ round1 x ∧ round1 x ≤ 100 := by
  have hl : (0 : Int) ≤ pyRound (10 * x) := by
    unfold pyRound
    apply Int.le_floor.mpr
    push_cast
    linarith
  have hu : pyRound (10 * x) ≤ 1000 := by
    unfold pyRound
    have : (⌊10 * x + 1/2⌋ : Int) < 1001 := by
      apply Int.floor_lt.mpr
      push_cast
      linarith
    omega
  unfold round1
  constructor
  · apply div_nonneg _ (by norm_num)
    exact_mod_cast hl
  · rw [div_le_iff₀ (by norm_num : (0:ℚ) < 10)]
    calc ((pyRound (10 * x) : Int) : ℚ) ≤ ((1000 : Int) : ℚ) := by exact_mod_cast hu
      _ = 100 * 10 := by norm_num

lemma ok_bind {α β : Type} (a : α) (f : α → Except Unit β) :
    (Except.ok a >>= f) = f a := rfl

lemma pyDiv_ok {a b : ℚ} (h : b ≠ 0) : pyDiv a b = Except.ok (a / b) := by
  simp [pyDiv, h]

lemma foldlM_ok {α β : Type} (f : β → α → Except Unit β) (l : List α) (b : β)
    (h : ∀ b' a, a ∈ l → ∃ y, f b' a = Except.ok y) :
    ∃ y, l.foldlM f b = Except.ok y := by
  induction l generalizing b with
  | nil => exact ⟨b, rfl⟩
  | cons x xs ih =>
    obtain ⟨y, hy⟩ := h b x (List.mem_cons_self x xs)
    rw [List.foldlM_cons, hy, ok_bind]
    exact ih y fun b' a ha => h b' a (List.mem_cons_of_mem x ha)

lemma top_cities_loop_ok (total : ℚ) (h : total ≠ 0) (cs : List (String × Nat)) :
    ∃ v, top_cities_loop total cs = Except.ok v := by
  unfold top_cities_loop
  apply foldlM_ok
  intro b' a _
  simp only [pyDiv_ok h, ok_bind]
  exact ⟨_, rfl⟩

lemma countries_loop_ok (total : ℚ) (h : total ≠ 0) (cs : List (String × Nat)) :
    ∃ v, countries_loop total cs = Except.ok v := by
  unfold countries_loop
  apply foldlM_ok
  intro b' a _
  simp only [pyDiv_ok h, ok_bind]
  exact ⟨_, rfl⟩

lemma analyze_geography_ok (members : List Member) :
    ∃ g, analyze_geography members = Except.ok g := by
  rcases members with _ | ⟨m, ms⟩
  · exact ⟨_, rfl⟩
  · have htot : (((m :: ms).length : ℕ) : ℚ) ≠ 0 := by
      rw [Nat.cast_ne_zero]
      simp
    simp only [analyze_geography]
    obtain ⟨tc, htc⟩ := top_cities_loop_ok (((m :: ms).length : ℕ) : ℚ) htot
      (mostCommon 10 (List.foldl geoStep {} (m :: ms)).cities)
    obtain ⟨cd, hcd⟩ := countries_loop_ok (((m :: ms).length : ℕ) : ℚ) htot
      (mostCommon 5 (List.foldl geoStep {} (m :: ms)).countries)
    rw [htc, ok_bind, hcd, ok_bind]
    exact ⟨_, rfl⟩

lemma analyze_audience_ok (now : ℚ) (today : Date) (members : List Member) :
    ∃ x, analyze_audience now today members = Except.ok x := by
  unfold analyze_audience
  by_cases h : members.isEmpty
  · rw [if_pos h]
    exact ⟨_, rfl⟩
  · rw [if_neg h]
    obtain ⟨g, hg⟩ := analyze_geography_ok members
    rw [hg]
    exact ⟨_, rfl⟩

lemma genderCounts_foldl (ms : List Member) (acc : GCounts) :
    ms.foldl gStep acc =
      ⟨acc.female + ms.countP (fun m => m.sex.getD 0 == 1),
       acc.male + ms.countP (fun m => m.sex.getD 0 == 2),
       acc.unknown + ms.countP
         (fun m => !(m.sex.getD 0 == 1) && !(m.sex.getD 0 == 2))⟩ := by
  induction ms generalizing acc with
  | nil => simp
  | cons m ms ih =>
    rw [List.foldl_cons, ih]
    unfold gStep
    rcases acc with ⟨f, ml, u⟩
    simp only [List.countP_cons, beq_iff_eq, Bool.and_eq_true, Bool.not_eq_true']
    by_cases h1 : m.sex.getD 0 = 1
    · simp [h1, GCounts.mk.injEq]
      omega
    · by_cases h2 : m.sex.getD 0 = 2
      · simp [h1, h2, GCounts.mk.injEq]
        omega
      · simp [h1, h2, GCounts.mk.injEq]
        omega

lemma countP_gender_partition (ms : List Member) :
    ms.countP (fun m => m.sex.getD 0 == 1) +
      ms.countP (fun m => m.sex.getD 0 == 2) +
      ms.countP (fun m => !(m.sex.getD 0 == 1) && !(m.sex.getD 0 == 2)) =
      ms.length := by
  induction ms with
  | nil => simp
  | cons m ms ih =>
    simp only [List.countP_cons, List.length_cons, beq_iff_eq]
    by_cases h1 : m.sex.getD 0 = 1
    · simp [h1]
      omega
    · by_cases h2 : m.sex.getD 0 = 2
      · simp [h1, h2]
        omega
      · simp [h1, h2]
        omega

lemma genderCounts_total (ms : List Member) :
    (genderCounts ms).female + (genderCounts ms).male + (genderCounts ms).unknown =
      ms.length := by
  rw [genderCounts, genderCounts_foldl]
  simpa using countP_gender_partition ms

/-- C8: `analyze_audience` applied to the empty batch returns the empty
report (the source's `{}`, modelled as `none`: no sections populated) and
raises no exception (`Except.ok`). -/
theorem c8_empty_batch (now : ℚ) (today : Date) :
    analyze_audience now today [] = Except.ok none := rfl

/-- C5: `analyze_audience` never raises: for every batch of profile records,
whatever the individual field values (missing fields, malformed birth-date
strings, `sex` codes outside {1,2}, city/country/last-seen dicts without
their expected keys, empty free-text fields), the result is `Except.ok` —
the only fallible operations in the embedding, the unguarded divisions of
`_analyze_geography`, never fire, and each aggregator classifies degraded
fields as unknown instead of failing. -/
theorem c5_analyze_total (now : ℚ) (today : Date) (members : List Member) :
    ∃ x, analyze_audience now today members = Except.ok x :=
  analyze_audience_ok now today members

/-- C10: a member is tallied in the `female` gender bucket exactly when its
`sex` field is `1`, in `male` exactly when it is `2`, and in `unknown`
otherwise (missing `sex` — read as the default `0` — included). -/
theorem c10_gender_bucketing (members : List Member) :
    genderCounts members =
      ⟨members.countP (fun m => m.sex.getD 0 == 1),
       members.countP (fun m => m.sex.getD 0 == 2),
       members.countP (fun m => !(m.sex.getD 0 == 1) && !(m.sex.getD 0 == 2))⟩ := by
  rw [genderCounts, genderCounts_foldl]
  simp

/-- C4: for every non-empty batch, the three reported gender percentages sum
to 100 within 0.1: each member lands in exactly one bucket, the exact
percentages sum to 100, and the three one-decimal roundings can shift the
sum by at most one tenth in total. -/
theorem c4_gender_sum (members : List Member) (h : members ≠ []) :
    |dget (analyze_gender members) "male" + dget (analyze_gender members) "female" +
      dget (analyze_gender members) "unknown" - 100| ≤ 1/10 := by
  have hlen : members.length ≠ 0 := fun hc => h (List.length_eq_zero.mp hc)
  have hq : (members.length : ℚ) ≠ 0 := Nat.cast_ne_zero.mpr hlen
  have hsum :
      [((genderCounts members).male : ℚ) / members.length * 100,
       ((genderCounts members).female : ℚ) / members.length * 100,
       ((genderCounts members).unknown : ℚ) / members.length * 100].sum =
        ((100 : Int) : ℚ) := by
    have htot := genderCounts_total members
    have htotq : ((genderCounts members).female : ℚ) + (genderCounts members).male +
        (genderCounts members).unknown = (members.length : ℚ) := by
      exact_mod_cast htot
    simp only [List.sum_cons, List.sum_nil]
    field_simp
    linarith
  have key := round1_sum_near
    [((genderCounts members).male : ℚ) / members.length * 100,
     ((genderCounts members).female : ℚ) / members.length * 100,
     ((genderCounts members).unknown : ℚ) / members.length * 100] 100 hsum
  simp only [List.map_cons, List.map_nil, List.sum_cons, List.sum_nil,
    List.length_cons, List.length_nil] at key
  norm_num at key
  simp only [analyze_gender]
  rw [if_neg hlen]
  simp only [dget]
  norm_num
  calc |round1 (((genderCounts members).male : ℚ) / members.length * 100) +
        round1 (((genderCounts members).female : ℚ) / members.length * 100) +
        round1 (((genderCounts members).unknown : ℚ) / members.length * 100) - 100|
      = |round1 (((genderCounts members).male : ℚ) / members.length * 100) +
          (round1 (((genderCounts members).female : ℚ) / members.length * 100) +
            round1 (((genderCounts members).unknown : ℚ) / members.length * 100)) -
          100| := by ring_nf
    _ ≤ 1/10 := key

/-- Witness for C4: the one-member batch with no fields set satisfies the
hypothesis and the bound. -/
theorem c4_gender_sum_witness :
    ([({} : Member)] ≠ []) ∧
      |dget (analyze_gender [({} : Member)]) "male" +
        dget (analyze_gender [({} : Member)]) "female" +
        dget (analyze_gender [({} : Member)]) "unknown" - 100| ≤ 1/10 :=
  ⟨List.cons_ne_nil _ _, c4_gender_sum [({} : Member)] (List.cons_ne_nil _ _)⟩

lemma calculate_age_nonneg {t : Date} {b : String} {a : Int}
    (h : calculate_age t b = some a) : 0 ≤ a := by
  unfold calculate_age at h
  split at h
  · simp at h
  · split at h
    case _ day month year =>
      split at h
      · simp at h
      · rw [Option.some.injEq] at h
        subst h
        exact le_max_left 0 _
    case _ => simp at h

lemma bucketSum_bumpAge (acc : AgeAcc) (a : Int) (h0 : 0 ≤ a) (h2 : a < 200) :
    bucketSum (bumpAge acc a) = bucketSum acc + 1 := by
  unfold bumpAge bucketSum
  split_ifs <;> simp <;> omega

lemma unknown_bumpAge (acc : AgeAcc) (a : Int) :
    (bumpAge acc a).unknown = acc.unknown := by
  unfold bumpAge
  split_ifs <;> rfl

lemma ageStep_total (today : Date) (acc : AgeAcc) (m : Member)
    (hm : ∀ a, calculate_age today (m.bdate.getD "") = some a → a < 200) :
    bucketSum (ageStep today acc m) + (ageStep today acc m).unknown =
      bucketSum acc + acc.unknown + 1 := by
  unfold ageStep
  split
  · split
    next age heq =>
      have h0 : 0 ≤ age := calculate_age_nonneg heq
      have h2 : age < 200 := hm age heq
      have hb := bucketSum_bumpAge { acc with ages := acc.ages ++ [age] } age h0 h2
      have hu := unknown_bumpAge { acc with ages := acc.ages ++ [age] } age
      simp only [bucketSum] at hb ⊢
      simp only [hu]
      omega
    next heq =>
      simp only [bucketSum]
      omega
  · simp only [bucketSum]
    omega

lemma ageFold_total (today : Date) (ms : List Member) (acc : AgeAcc)
    (hlt : ∀ m ∈ ms, ∀ a, calculate_age today (m.bdate.getD "") = some a → a < 200) :
    bucketSum (ms.foldl (ageStep today) acc) + (ms.foldl (ageStep today) acc).unknown =
      bucketSum acc + acc.unknown + ms.length := by
  induction ms generalizing acc with
  | nil => simp
  | cons m ms ih =>
    rw [List.foldl_cons, List.length_cons]
    have hrest : ∀ m' ∈ ms, ∀ a, calculate_age today (m'.bdate.getD "") = some a → a < 200 :=
      fun m' hm' => hlt m' (List.mem_cons_of_mem m hm')
    rw [ih _ hrest]
    have key := ageStep_total today acc m (fun a => hlt m (List.mem_cons_self m ms) a)
    omega

lemma namedBucketSum_age (v1 v2 v3 v4 v5 v6 va vu : ℚ) :
    namedBucketSum [("до 18", v1), ("18-24", v2), ("25-34", v3), ("35-44", v4),
      ("45-54", v5), ("55+", v6), ("average_age", va), ("unknown_percentage", vu)] =
      v1 + v2 + v3 + v4 + v5 + v6 := by
  simp [namedBucketSum]
  ring

lemma age_groups_mem_iff (gp : String × Int × Int) :
    gp ∈ age_groups ↔
      gp = ("до 18", 0, 18) ∨ gp = ("18-24", 18, 25) ∨ gp = ("25-34", 25, 35) ∨
        gp = ("35-44", 35, 45) ∨ gp = ("45-54", 45, 55) ∨ gp = ("55+", 55, 200) := by
  simp [age_groups]

lemma age_groups_exists (a : Int) (h0 : 0 ≤ a) (h1 : a < 200) :
    ∃ gp, gp ∈ age_groups ∧ gp.2.1 ≤ a ∧ a < gp.2.2 := by
  by_cases c1 : a < 18
  · exact ⟨("до 18", 0, 18), by simp [age_groups], h0, c1⟩
  · by_cases c2 : a < 25
    · refine ⟨("18-24", 18, 25), by simp [age_groups], ?_, c2⟩
      show (18 : Int) ≤ a
      omega
    · by_cases c3 : a < 35
      · refine ⟨("25-34", 25, 35), by simp [age_groups], ?_, c3⟩
        show (25 : Int) ≤ a
        omega
      · by_cases c4 : a < 45
        · refine ⟨("35-44", 35, 45), by simp [age_groups], ?_, c4⟩
          show (35 : Int) ≤ a
          omega
        · by_cases c5 : a < 55
          · refine ⟨("45-54", 45, 55), by simp [age_groups], ?_, c5⟩
            show (45 : Int) ≤ a
            omega
          · refine ⟨("55+", 55, 200), by simp [age_groups], ?_, h1⟩
            show (55 : Int) ≤ a
            omega

lemma age_groups_unique (a : Int) (gp gq : String × Int × Int)
    (hp : gp ∈ age_groups ∧ gp.2.1 ≤ a ∧ a < gp.2.2)
    (hq : gq ∈ age_groups ∧ gq.2.1 ≤ a ∧ a < gq.2.2) : gp = gq := by
  obtain ⟨hp0, hp1, hp2⟩ := hp
  obtain ⟨hq0, hq1, hq2⟩ := hq
  rw [age_groups_mem_iff] at hp0 hq0
  rcases hp0 with rfl | rfl | rfl | rfl | rfl | rfl <;>
    rcases hq0 with rfl | rfl | rfl | rfl | rfl | rfl <;>
    simp_all <;> omega

lemma dget_age_unknown (v1 v2 v3 v4 v5 v6 va vu : ℚ) :
    dget [("до 18", v1), ("18-24", v2), ("25-34", v3), ("35-44", v4),
      ("45-54", v5), ("55+", v6), ("average_age", va), ("unknown_percentage", vu)]
      "unknown_percentage" = vu := by
  simp [dget]

/-- C3 (amended): for every non-empty batch all of whose resolved ages are
below 200 (the named half-open ranges are mutually exclusive but cover only
`[0, 200)`, so a resolved age of 200 or more falls into no bucket), the sum
of the named age-bucket percentages equals `100 − unknown_percentage` within
0.3 — seven independently rounded percentages can drift by up to three
tenths in total, not one. -/
theorem c3_amended_bucket_sum (today : Date) (members : List Member)
    (hne : members ≠ [])
    (hlt : ∀ m ∈ members, ∀ a, calculate_age today (m.bdate.getD "") = some a → a < 200) :
    (∀ a : Int, 0 ≤ a → a < 200 →
      ∃! gp, gp ∈ age_groups ∧ gp.2.1 ≤ a ∧ a < gp.2.2) ∧
    |namedBucketSum (analyze_age today members) -
      (100 - dget (analyze_age today members) "unknown_percentage")| ≤ 3/10 := by
  refine ⟨?_, ?_⟩
  · intro a h0 h1
    obtain ⟨gp, hgp⟩ := age_groups_exists a h0 h1
    exact ⟨gp, hgp, fun gq hgq => age_groups_unique a gq gp hgq hgp⟩
  · have hlen : members.length ≠ 0 := fun hc => hne (List.length_eq_zero.mp hc)
    have hq : (members.length : ℚ) ≠ 0 := Nat.cast_ne_zero.mpr hlen
    have htot := ageFold_total today members {} hlt
    simp only [bucketSum] at htot
    norm_num at htot
    simp only [analyze_age]
    rw [if_neg hlen]
    rw [namedBucketSum_age, dget_age_unknown]
    set acc := members.foldl (ageStep today) ({} : AgeAcc) with hacc
    have hsum :
        [(acc.cU18 : ℚ) / members.length * 100, (acc.c18 : ℚ) / members.length * 100,
         (acc.c25 : ℚ) / members.length * 100, (acc.c35 : ℚ) / members.length * 100,
         (acc.c45 : ℚ) / members.length * 100, (acc.c55 : ℚ) / members.length * 100,
         (acc.unknown : ℚ) / members.length * 100].sum = ((100 : Int) : ℚ) := by
      have h7 : (acc.cU18 : ℚ) + acc.c18 + acc.c25 + acc.c35 + acc.c45 + acc.c55 +
          acc.unknown = (members.length : ℚ) := by
        exact_mod_cast htot
      simp only [List.sum_cons, List.sum_nil]
      field_simp
      linarith
    have key := round1_sum_near
      [(acc.cU18 : ℚ) / members.length * 100, (acc.c18 : ℚ) / members.length * 100,
       (acc.c25 : ℚ) / members.length * 100, (acc.c35 : ℚ) / members.length * 100,
       (acc.c45 : ℚ) / members.length * 100, (acc.c55 : ℚ) / members.length * 100,
       (acc.unknown : ℚ) / members.length * 100] 100 hsum
    simp only [List.map_cons, List.map_nil, List.sum_cons, List.sum_nil,
      List.length_cons, List.length_nil] at key
    norm_num at key
    calc |round1 ((acc.cU18 : ℚ) / members.length * 100) +
          round1 ((acc.c18 : ℚ) / members.length * 100) +
          round1 ((acc.c25 : ℚ) / members.length * 100) +
          round1 ((acc.c35 : ℚ) / members.length * 100) +
          round1 ((acc.c45 : ℚ) / members.length * 100) +
          round1 ((acc.c55 : ℚ) / members.length * 100) -
          (100 - round1 ((acc.unknown : ℚ) / members.length * 100))|
        = |round1 ((acc.cU18 : ℚ) / members.length * 100) +
            (round1 ((acc.c18 : ℚ) / members.length * 100) +
              (round1 ((acc.c25 : ℚ) / members.length * 100) +
                (round1 ((acc.c35 : ℚ) / members.length * 100) +
                  (round1 ((acc.c45 : ℚ) / members.length * 100) +
                    (round1 ((acc.c55 : ℚ) / members.length * 100) +
                      round1 ((acc.unknown : ℚ) / members.length * 100)))))) - 100| := by
          ring_nf
      _ ≤ 3/10 := key

/-- C3 (counterexample): on the six-member batch with exactly one member per
age bucket, every named percentage rounds 16.666… up to 16.7, so the named
buckets sum to 100.2 while `100 − unknown_percentage = 100` — off by 0.2,
outside the claimed 0.1 tolerance. -/
theorem c3_counterexample :
    ¬(|namedBucketSum (analyze_age todayJune2024 evenBatch) -
        (100 - dget (analyze_age todayJune2024 evenBatch) "unknown_percentage")| ≤
        1/10) := by
  with_unfolding_all decide

/-- Witness for C3 (amended): a one-member batch with birth date
`"1.1.2000"` (resolved age 24) satisfies both hypotheses and the 0.3 bound. -/
theorem c3_amended_bucket_sum_witness :
    ([mb "1.1.2000"] ≠ []) ∧
      (∀ m ∈ [mb "1.1.2000"], ∀ a,
        calculate_age todayJune2024 (m.bdate.getD "") = some a → a < 200) ∧
      (∀ a : Int, 0 ≤ a → a < 200 →
        ∃! gp, gp ∈ age_groups ∧ gp.2.1 ≤ a ∧ a < gp.2.2) ∧
      |namedBucketSum (analyze_age todayJune2024 [mb "1.1.2000"]) -
        (100 - dget (analyze_age todayJune2024 [mb "1.1.2000"]) "unknown_percentage")| ≤
        3/10 := by
  have h2 : ∀ m ∈ [mb "1.1.2000"], ∀ a,
      calculate_age todayJune2024 (m.bdate.getD "") = some a → a < 200 := by
    intro m hm a ha
    rw [List.mem_singleton] at hm
    subst hm
    have hca : calculate_age todayJune2024 ((mb "1.1.2000").bdate.getD "") = some 24 := by
      with_unfolding_all decide
    rw [hca, Option.some.injEq] at ha
    omega
  have hmain := c3_amended_bucket_sum todayJune2024 [mb "1.1.2000"]
    (List.cons_ne_nil _ _) h2
  exact ⟨List.cons_ne_nil _ _, h2, hmain.1, hmain.2⟩

/-- C1 (amended): an age is derived exactly when the birth-date string
splits on `'.'` into at least three parts whose first three parse as
integers with a *nonzero* year — the year need not have four digits; the
derived age is current year minus birth year, minus one when today's
(month, day) precedes the birth (month, day) lexicographically, floored at
0.  In every other case — missing, short or unparseable strings — the result
is `none` (the source catches the parse errors), so no age and no
exception. -/
theorem c1_amended_age_characterization (today : Date) (b : String) (a : Int) :
    calculate_age today b = some a ↔
      ∃ d m y, pyInt ((pySplitDot b).getD 0 "") = some d ∧
        pyInt ((pySplitDot b).getD 1 "") = some m ∧
        2 < (pySplitDot b).length ∧
        pyInt ((pySplitDot b).getD 2 "") = some y ∧ y ≠ 0 ∧
        a = max 0 (today.year - y -
          (if tupLt (today.month, today.day) (m, d) then 1 else 0)) := by
  constructor
  · intro h
    unfold calculate_age at h
    split at h
    · simp at h
    · split at h
      · rename_i dv mv yv hdv hmv hyv
        by_cases hlen2 : 2 < (pySplitDot b).length
        · rw [if_pos hlen2] at hyv
          split at h
          · simp at h
          · rename_i hy0
            rw [Option.some.injEq] at h
            exact ⟨dv, mv, yv, hdv, hmv, hlen2, hyv, hy0, h.symm⟩
        · rw [if_neg hlen2] at hyv
          simp at hyv
      all_goals simp at h
  · rintro ⟨d, m, y, hd, hm, hlen, hy, hy0, ha⟩
    unfold calculate_age
    have hb : ¬(b = "" ∨ (pySplitDot b).length < 2) := by
      rintro (hb1 | hb2)
      · subst hb1
        exact absurd hlen (by with_unfolding_all decide)
      · omega
    rw [if_neg hb, hd, hm, if_pos hlen, hy]
    show (if y = 0 then none
      else some (max 0 (today.year - y -
        (if tupLt (today.month, today.day) (m, d) then 1 else 0)))) = some a
    rw [if_neg hy0, ha]

/-- C1 (counterexample): the birth date `"1.1.90"` has a two-digit year part,
yet `_calculate_age` derives an age from it (current year minus 90) — the
claim's "only when … a 4-digit year" fails. -/
theorem c1_counterexample :
    (calculate_age ⟨2026, 10, 12⟩ "1.1.90").isSome = true ∧
      ((pySplitDot "1.1.90").getD 2 "").length ≠ 4 := by
  with_unfolding_all decide

lemma calculate_audience_quality_score_eq (c : Completeness) (s : Social)
    (i : Interests) (g : List (String × ℚ)) :
    calculate_audience_quality_score c s i g =
      round1 (min 100 (max 0 (50 + c.average_completeness / 100 * 20 +
        s.active_users_percentage / 100 * 20 +
        (if 5 < i.total_categories_found then 10 else 0) +
        (if |dget g "male" - dget g "female"| < 20 then 10 else 0)))) := by
  unfold calculate_audience_quality_score
  split_ifs <;> ring_nf

lemma calculate_audience_quality_score_bounds (c : Completeness) (s : Social)
    (i : Interests) (g : List (String × ℚ)) :
    0 ≤ calculate_audience_quality_score c s i g ∧
      calculate_audience_quality_score c s i g ≤ 100 := by
  simp only [calculate_audience_quality_score]
  exact round1_bounds (le_min (by norm_num) (le_max_left _ _)) (min_le_left _ _)

/-- C2: for every non-empty batch, `analyze_audience` succeeds and the
report's `audience_quality_score` equals
`50 + (average_completeness/100)*20 + (active_users_percentage/100)*20 +
(10 if total_categories_found > 5) + (10 if |male% − female%| < 20)`,
clamped to [0, 100] and rounded to one decimal — hence it always lies in
[0, 100], including for degenerate all-unknown batches. -/
theorem c2_quality_score (now : ℚ) (today : Date) (members : List Member)
    (h : members ≠ []) :
    ∃ r : Report, analyze_audience now today members = Except.ok (some r) ∧
      r.audience_quality_score =
        round1 (min 100 (max 0 (50 +
          r.profile_completeness.average_completeness / 100 * 20 +
          r.social_activity.active_users_percentage / 100 * 20 +
          (if 5 < r.interests.total_categories_found then 10 else 0) +
          (if |dget r.gender "male" - dget r.gender "female"| < 20 then 10 else 0)))) ∧
      0 ≤ r.audience_quality_score ∧ r.audience_quality_score ≤ 100 := by
  obtain ⟨g, hg⟩ := analyze_geography_ok members
  have hne : members.isEmpty = false := by
    cases members with
    | nil => exact absurd rfl h
    | cons a l => rfl
  refine ⟨buildReport now today members g, ?_, ?_, ?_, ?_⟩
  · unfold analyze_audience
    rw [if_neg (by rw [hne]; exact Bool.false_ne_true), hg]
    rfl
  · simp only [buildReport]
    exact calculate_audience_quality_score_eq _ _ _ _
  · simp only [buildReport]
    exact (calculate_audience_quality_score_bounds _ _ _ _).1
  · simp only [buildReport]
    exact (calculate_audience_quality_score_bounds _ _ _ _).2

/-- Witness for C2: the degenerate one-member all-unknown batch. -/
theorem c2_quality_score_witness :
    ([({} : Member)] ≠ []) ∧
      (∃ r : Report, analyze_audience 0 todayJune2024 [({} : Member)] =
          Except.ok (some r) ∧
        r.audience_quality_score =
          round1 (min 100 (max 0 (50 +
            r.profile_completeness.average_completeness / 100 * 20 +
            r.social_activity.active_users_percentage / 100 * 20 +
            (if 5 < r.interests.total_categories_found then 10 else 0) +
            (if |dget r.gender "male" - dget r.gender "female"| < 20 then 10
              else 0)))) ∧
        0 ≤ r.audience_quality_score ∧ r.audience_quality_score ≤ 100) :=
  ⟨List.cons_ne_nil _ _,
    c2_quality_score 0 todayJune2024 [({} : Member)] (List.cons_ne_nil _ _)⟩

lemma calcSim_bridge (d1 d2 : List (String × ℚ)) (h1 : d1 ≠ []) (h2 : d2 ≠ []) :
    calculate_similarity_percentage d1 d2 = round1 (simSpec d1 d2) := by
  unfold calculate_similarity_percentage simSpec
  rw [if_neg (not_or.mpr ⟨h1, h2⟩)]
  have hLne : d1.map Prod.fst ++ d2.map Prod.fst ≠ [] := by
    rcases d1 with _ | ⟨p, d⟩
    · exact absurd rfl h1
    · simp
  have hdne : (d1.map Prod.fst ++ d2.map Prod.fst).dedup ≠ [] := by
    intro hc
    rcases List.exists_mem_of_ne_nil _ hLne with ⟨x, hx⟩
    have hxd : x ∈ (d1.map Prod.fst ++ d2.map Prod.fst).dedup := List.mem_dedup.mpr hx
    rw [hc] at hxd
    simp at hxd
  rw [if_neg hdne]
  have hK : (d1.map Prod.fst).toFinset ∪ (d2.map Prod.fst).toFinset =
      (d1.map Prod.fst ++ d2.map Prod.fst).toFinset := (List.toFinset_append).symm
  rw [hK]
  have hft : (d1.map Prod.fst ++ d2.map Prod.fst).dedup.toFinset =
      (d1.map Prod.fst ++ d2.map Prod.fst).toFinset := by
    ext x
    simp [List.mem_toFinset, List.mem_dedup]
  have hsum : ∑ k in (d1.map Prod.fst ++ d2.map Prod.fst).toFinset,
      (100 - |dget d1 k - dget d2 k|) =
      ((d1.map Prod.fst ++ d2.map Prod.fst).dedup.map
        fun k => 100 - |dget d1 k - dget d2 k|).sum := by
    rw [← hft]
    exact List.sum_toFinset _ (List.nodup_dedup _)
  have hcard : (d1.map Prod.fst ++ d2.map Prod.fst).toFinset.card =
      (d1.map Prod.fst ++ d2.map Prod.fst).dedup.length := List.card_toFinset _
  rw [hsum, hcard]

/-- C6 (amended): the comparator's dimension-similarity is `0` whenever
either distribution is empty; otherwise it is the claim's average over the
key union — rounded to one decimal. -/
theorem c6_amended_similarity (d1 d2 : List (String × ℚ)) :
    calculate_similarity_percentage d1 d2 =
      if d1 = [] ∨ d2 = [] then 0 else round1 (simSpec d1 d2) := by
  by_cases h : d1 = [] ∨ d2 = []
  · rw [if_pos h]
    unfold calculate_similarity_percentage
    rw [if_pos h]
  · rw [if_neg h]
    push_neg at h
    exact calcSim_bridge d1 d2 h.1 h.2

/-- C6 (counterexample): against the empty gender distribution (as produced
for an empty report) and `{male: 50}`, the code returns `0`, while the
claim's average over the key union is `100 − |0 − 50| = 50`. -/
theorem c6_counterexample :
    calculate_similarity_percentage [] [("male", 50)] = 0 ∧
      simSpec [] [("male", 50)] = 50 := by
  constructor
  · with_unfolding_all decide
  · with_unfolding_all decide

lemma simSpec_symm (d1 d2 : List (String × ℚ)) : simSpec d1 d2 = simSpec d2 d1 := by
  unfold simSpec
  rw [Finset.union_comm]
  congr 1
  exact Finset.sum_congr rfl fun k _ => by rw [abs_sub_comm]

lemma calcSim_symm (d1 d2 : List (String × ℚ)) :
    calculate_similarity_percentage d1 d2 = calculate_similarity_percentage d2 d1 := by
  by_cases h1 : d1 = []
  · unfold calculate_similarity_percentage
    rw [if_pos (Or.inl h1), if_pos (Or.inr h1)]
  · by_cases h2 : d2 = []
    · unfold calculate_similarity_percentage
      rw [if_pos (Or.inr h2), if_pos (Or.inl h2)]
    · rw [calcSim_bridge d1 d2 h1 h2, calcSim_bridge d2 d1 h2 h1, simSpec_symm]

/-- C7: the gender-dimension and age-dimension similarities of
`compare_audiences` are symmetric in the two reports. -/
theorem c7_similarity_symmetric (a1 a2 : Option Report) :
    (compare_audiences a1 a2).gender_similarity =
        (compare_audiences a2 a1).gender_similarity ∧
      (compare_audiences a1 a2).age_similarity =
        (compare_audiences a2 a1).age_similarity := by
  constructor <;> simp only [compare_audiences] <;> exact calcSim_symm _ _

lemma str_data_append (a b : String) : (a ++ b).data = a.data ++ b.data := by
  cases a
  cases b
  rfl

lemma str_ext {a b : String} (h : a.data = b.data) : a = b := by
  cases a with
  | mk la =>
    cases b with
    | mk lb => exact congrArg String.mk h

lemma str_append_left_cancel {a b c : String} (h : a ++ b = a ++ c) : b = c := by
  have hd := congrArg String.data h
  rw [str_data_append, str_data_append] at hd
  exact str_ext (List.append_cancel_left hd)

lemma ne_of_head_append (a c : String) (h1 : a.data.take 1 ≠ c.data.take 1)
    (h2 : 1 ≤ a.data.length) (g : String) : a ++ g ≠ c := by
  intro h
  apply h1
  have hd := congrArg String.data h
  rw [str_data_append] at hd
  calc a.data.take 1 = (a.data ++ g.data).take 1 :=
        (List.take_append_of_le_length h2).symm
    _ = c.data.take 1 := by rw [hd]

/-- C9 (amended): `compare_audiences` lists the age characteristic
`"Основная возрастная группа: X"` exactly when both age dicts are non-empty
and their *first maximal entries over all keys* — `average_age` and
`unknown_percentage` included, since the source takes
`max(age_groups.items(), key=...)` over the whole dict — carry the same
non-empty key `X`.  In particular a named bucket that is the strictly
highest value of both dicts is listed, but `X` can also be `average_age` or
`unknown_percentage`, so the listed "group" need not be a named age bucket
and need not agree with the dominant named buckets. -/
theorem c9_amended_age_characteristic (a1 a2 : Option Report) (g : String) :
    ("Основная возрастная группа: " ++ g) ∈
        (compare_audiences a1 a2).common_characteristics ↔
      (g ≠ "" ∧ mainAgeGroup (getAge a1) = some g ∧
        mainAgeGroup (getAge a2) = some g) := by
  have hp1 : 1 ≤ ("Основная возрастная группа: ").data.length := by decide
  have hne1 := ne_of_head_append "Основная возрастная группа: "
    "Преобладает мужская аудитория" (by decide) hp1
  have hne2 := ne_of_head_append "Основная возрастная группа: "
    "Преобладает женская аудитория" (by decide) hp1
  have hne3 := ne_of_head_append "Основная возрастная группа: "
    "Схожее качество аудитории" (by decide) hp1
  have hne4 := ne_of_head_append "Основная возрастная группа: "
    "Первая аудитория качественнее" (by decide) hp1
  have hne5 := ne_of_head_append "Основная возрастная группа: "
    "Вторая аудитория качественнее" (by decide) hp1
  simp only [compare_audiences]
  rw [List.mem_append, List.mem_append]
  constructor
  · rintro ((hm | hm) | hm)
    · exfalso
      split_ifs at hm <;> simp only [List.mem_singleton, List.not_mem_nil] at hm
      · exact hne1 g hm
      · exact hne2 g hm
    · rcases hA : mainAgeGroup (getAge a1) with _ | x
      · rw [hA] at hm
        simp at hm
      · rcases hB : mainAgeGroup (getAge a2) with _ | y
        · rw [hA, hB] at hm
          simp at hm
        · rw [hA, hB] at hm
          simp only [] at hm
          split_ifs at hm with hcond
          · rw [List.mem_singleton] at hm
            have hgx : g = x := str_append_left_cancel hm
            refine ⟨?_, ?_, ?_⟩
            · rw [hgx]
              exact hcond.1
            · rw [hgx]
            · rw [hgx, hcond.2.2]
          · simp at hm
    · exfalso
      split_ifs at hm <;> simp only [List.mem_singleton, List.not_mem_nil] at hm
      · exact hne3 g hm
      · exact hne4 g hm
      · exact hne5 g hm
  · rintro ⟨hg, hA, hB⟩
    left
    right
    rw [hA, hB]
    simp [hg]

set_option maxRecDepth 4000 in
/-- C9 (counterexample): two reports whose strictly dominant *named* age
buckets differ (`до 18` vs `18-24`) still get an age-group shared
characteristic listed, because `average_age` is the maximal entry of both
age dicts — refuting "lists an age-group characteristic only when the two
reports' dominant age buckets coincide". -/
theorem c9_counterexample :
    dominantNamedBucket reportA.age_groups = some "до 18" ∧
      dominantNamedBucket reportB.age_groups = some "18-24" ∧
      "Основная возрастная группа: average_age" ∈
        (compare_audiences (some reportA) (some reportB)).common_characteristics := by
  with_unfolding_all decide
